import Mathlib

/-!
Verification of the `crud` package: a generic CRUD helper over the bun query
builder. The core logic is `applyFilter`, which translates a declarative
`Filter` into a sequence of builder calls (limit, offset, conjunctive and
disjunctive equality predicates) on a `SelectQuery` handle. The CRUD methods
delegate a single store call each and wrap failures with a short prefix.

The query-building handle is modelled as the list of builder calls made on it
(`Step`); each builder method appends one step, mirroring bun's fluent API.
Go `int` and `int64` are modelled as `Int` and kept apart in `Val` since the
source passes distinctly typed values to the builder. The external store call
(bun's `Exec`/`Scan`) is a parameter of each CRUD operation: an
`Except String _` outcome (or an oracle from the built query to an outcome).
-/

namespace Crud

/-- A typed value bound into an equality predicate. The source passes Go
`int`, `int64` and `string` values; they are distinct arguments at the
builder call sites, so they are kept distinct here. -/
inductive Val where
  | vint (n : Int)
  | vint64 (n : Int)
  | vstr (s : String)
deriving DecidableEq, Repr

/-- One builder call recorded on the query handle: `Limit`, `Offset`,
`Order`, `Where` (conjunctive) or `WhereOr` (disjunctive). -/
inductive Step where
  | limit (n : Int)
  | offset (n : Int)
  | order (s : String)
  | whereAnd (cond : String) (v : Val)
  | whereOr (cond : String) (v : Val)
deriving DecidableEq, Repr

/-- The query-building handle: the accumulated sequence of builder calls. -/
structure SelectQuery where
  steps : List Step
deriving DecidableEq, Repr

/-- `db.NewSelect()`: a fresh handle with no accumulated calls. (The `Model`
binding fixes the scan destination and adds no directive or predicate, so it
is not part of the recorded state.) -/
def NewSelect : SelectQuery := ⟨[]⟩

/-- `query.Limit(n)`. -/
def SelectQuery.Limit (q : SelectQuery) (n : Int) : SelectQuery :=
  ⟨q.steps ++ [Step.limit n]⟩

/-- `query.Offset(n)`. -/
def SelectQuery.Offset (q : SelectQuery) (n : Int) : SelectQuery :=
  ⟨q.steps ++ [Step.offset n]⟩

/-- `query.Where(cond, value)`: append a conjunctive predicate. -/
def SelectQuery.Where (q : SelectQuery) (cond : String) (v : Val) : SelectQuery :=
  ⟨q.steps ++ [Step.whereAnd cond v]⟩

/-- `query.WhereOr(cond, value)`: append a disjunctive predicate. -/
def SelectQuery.WhereOr (q : SelectQuery) (cond : String) (v : Val) : SelectQuery :=
  ⟨q.steps ++ [Step.whereOr cond v]⟩

/-- `query.Order(s)`: append an ordering directive. -/
def SelectQuery.Order (q : SelectQuery) (s : String) : SelectQuery :=
  ⟨q.steps ++ [Step.order s]⟩

/-- `KV[V]`: a field condition, a key paired with a typed value. -/
structure KV (V : Type) where
  Key : String
  Value : V
deriving DecidableEq, Repr

/-- The `Filter` struct, field for field from the source. -/
structure Filter where
  OrInt64 : List (KV Int)
  OrInt : List (KV Int)
  OrString : List (KV String)
  AndInt : List (KV Int)
  AndInt64 : List (KV Int)
  AndString : List (KV String)
  WhereInt : List (KV Int)
  WhereInt64 : List (KV Int)
  WhereString : List (KV String)
  Limit : Int
  Offset : Int
deriving DecidableEq, Repr

/-- The Go zero value of `Filter`: every slice nil, limit and offset 0. -/
def emptyFilter : Filter := ⟨[], [], [], [], [], [], [], [], [], 0, 0⟩

/-- `applyFilter`, translated loop for loop from the source: limit and offset
guards, then a `range` loop per group in source order (AndInt, AndInt64,
AndString, OrInt, OrInt64, OrString, WhereInt, WhereInt64, WhereString); each
iteration reassigns `query`, hence a left fold. `fmt.Sprintf("%s = ?", kv.Key)`
is `kv.Key ++ " = ?"`. -/
def applyFilter (query : SelectQuery) (filter : Filter) : SelectQuery :=
  let query := if filter.Limit > 0 then query.Limit filter.Limit else query
  let query := if filter.Offset > 0 then query.Offset filter.Offset else query
  let query := filter.AndInt.foldl
    (fun q kv => q.Where (kv.Key ++ " = ?") (Val.vint kv.Value)) query
  let query := filter.AndInt64.foldl
    (fun q kv => q.Where (kv.Key ++ " = ?") (Val.vint64 kv.Value)) query
  let query := filter.AndString.foldl
    (fun q kv => q.Where (kv.Key ++ " = ?") (Val.vstr kv.Value)) query
  let query := filter.OrInt.foldl
    (fun q kv => q.WhereOr (kv.Key ++ " = ?") (Val.vint kv.Value)) query
  let query := filter.OrInt64.foldl
    (fun q kv => q.WhereOr (kv.Key ++ " = ?") (Val.vint64 kv.Value)) query
  let query := filter.OrString.foldl
    (fun q kv => q.WhereOr (kv.Key ++ " = ?") (Val.vstr kv.Value)) query
  let query := filter.WhereInt.foldl
    (fun q kv => q.Where (kv.Key ++ " = ?") (Val.vint kv.Value)) query
  let query := filter.WhereInt64.foldl
    (fun q kv => q.Where (kv.Key ++ " = ?") (Val.vint64 kv.Value)) query
  let query := filter.WhereString.foldl
    (fun q kv => q.Where (kv.Key ++ " = ?") (Val.vstr kv.Value)) query
  query

/-- The step emitted for one `AndInt`/`WhereInt` condition. -/
def andIntStep (kv : KV Int) : Step :=
  Step.whereAnd (kv.Key ++ " = ?") (Val.vint kv.Value)

/-- The step emitted for one `AndInt64`/`WhereInt64` condition. -/
def andInt64Step (kv : KV Int) : Step :=
  Step.whereAnd (kv.Key ++ " = ?") (Val.vint64 kv.Value)

/-- The step emitted for one `AndString`/`WhereString` condition. -/
def andStringStep (kv : KV String) : Step :=
  Step.whereAnd (kv.Key ++ " = ?") (Val.vstr kv.Value)

/-- The step emitted for one `OrInt` condition. -/
def orIntStep (kv : KV Int) : Step :=
  Step.whereOr (kv.Key ++ " = ?") (Val.vint kv.Value)

/-- The step emitted for one `OrInt64` condition. -/
def orInt64Step (kv : KV Int) : Step :=
  Step.whereOr (kv.Key ++ " = ?") (Val.vint64 kv.Value)

/-- The step emitted for one `OrString` condition. -/
def orStringStep (kv : KV String) : Step :=
  Step.whereOr (kv.Key ++ " = ?") (Val.vstr kv.Value)

/-- Recogniser: is this step a limit directive? -/
def Step.isLimitStep : Step → Bool
  | Step.limit _ => true
  | _ => false

/-- Recogniser: is this step an offset directive? -/
def Step.isOffsetStep : Step → Bool
  | Step.offset _ => true
  | _ => false

/-- Recogniser: is this step an ordering directive? -/
def Step.isOrderStep : Step → Bool
  | Step.order _ => true
  | _ => false

/-- Recogniser: is this step a conjunctive predicate? -/
def Step.isAndStep : Step → Bool
  | Step.whereAnd _ _ => true
  | _ => false

/-- Recogniser: is this step a disjunctive predicate? -/
def Step.isOrStep : Step → Bool
  | Step.whereOr _ _ => true
  | _ => false

/-- Recogniser: is this step a predicate of either kind? -/
def Step.isPredicateStep : Step → Bool
  | Step.whereAnd _ _ => true
  | Step.whereOr _ _ => true
  | _ => false

theorem andIntStep_def (kv : KV Int) :
    Step.whereAnd (kv.Key ++ " = ?") (Val.vint kv.Value) = andIntStep kv := rfl

theorem andInt64Step_def (kv : KV Int) :
    Step.whereAnd (kv.Key ++ " = ?") (Val.vint64 kv.Value) = andInt64Step kv := rfl

theorem andStringStep_def (kv : KV String) :
    Step.whereAnd (kv.Key ++ " = ?") (Val.vstr kv.Value) = andStringStep kv := rfl

theorem orIntStep_def (kv : KV Int) :
    Step.whereOr (kv.Key ++ " = ?") (Val.vint kv.Value) = orIntStep kv := rfl

theorem orInt64Step_def (kv : KV Int) :
    Step.whereOr (kv.Key ++ " = ?") (Val.vint64 kv.Value) = orInt64Step kv := rfl

theorem orStringStep_def (kv : KV String) :
    Step.whereOr (kv.Key ++ " = ?") (Val.vstr kv.Value) = orStringStep kv := rfl

theorem foldl_step_append {α : Type} (g : α → Step) (l : List α) :
    ∀ (q : SelectQuery),
      l.foldl (fun q kv => SelectQuery.mk (q.steps ++ [g kv])) q
        = SelectQuery.mk (q.steps ++ l.map g) := by
  induction l with
  | nil => intro q; cases q; simp
  | cons kv t ih => intro q; simp [ih, List.append_assoc]

/-- The characterising lemma for `applyFilter`: the output handle's call list
is the input's followed by the emitted steps, in the source's order. -/
theorem applyFilter_steps (q : SelectQuery) (f : Filter) :
    (applyFilter q f).steps =
      q.steps
        ++ (if f.Limit > 0 then [Step.limit f.Limit] else [])
        ++ (if f.Offset > 0 then [Step.offset f.Offset] else [])
        ++ f.AndInt.map andIntStep
        ++ f.AndInt64.map andInt64Step
        ++ f.AndString.map andStringStep
        ++ f.OrInt.map orIntStep
        ++ f.OrInt64.map orInt64Step
        ++ f.OrString.map orStringStep
        ++ f.WhereInt.map andIntStep
        ++ f.WhereInt64.map andInt64Step
        ++ f.WhereString.map andStringStep := by
  unfold applyFilter
  simp only [SelectQuery.Where, SelectQuery.WhereOr, SelectQuery.Limit,
    SelectQuery.Offset, andIntStep_def, andInt64Step_def, andStringStep_def,
    orIntStep_def, orInt64Step_def, orStringStep_def, foldl_step_append]
  by_cases h1 : f.Limit > 0 <;> by_cases h2 : f.Offset > 0 <;>
    simp [h1, h2, List.append_assoc]

/-- C1: applyFilter applies, in order: the limit clause (when positive), the
offset clause (when positive), the AND-groups, the OR-groups, the
WHERE-groups; within each group kind the int, int64, string sub-lists in that
order; within each sub-list the conditions in insertion order. -/
theorem C1_applyFilter_fixed_order (q : SelectQuery) (f : Filter) :
    (applyFilter q f).steps =
      q.steps
        ++ (if f.Limit > 0 then [Step.limit f.Limit] else [])
        ++ (if f.Offset > 0 then [Step.offset f.Offset] else [])
        ++ f.AndInt.map andIntStep
        ++ f.AndInt64.map andInt64Step
        ++ f.AndString.map andStringStep
        ++ f.OrInt.map orIntStep
        ++ f.OrInt64.map orInt64Step
        ++ f.OrString.map orStringStep
        ++ f.WhereInt.map andIntStep
        ++ f.WhereInt64.map andInt64Step
        ++ f.WhereString.map andStringStep :=
  applyFilter_steps q f

theorem filter_map_eq_nil {β : Type} (p : Step → Bool) (g : β → Step)
    (l : List β) (h : ∀ b, p (g b) = false) : (l.map g).filter p = [] := by
  induction l with
  | nil => rfl
  | cons x t ih => simp [List.filter_cons, h x, ih]

theorem filter_map_eq_self {β : Type} (p : Step → Bool) (g : β → Step)
    (l : List β) (h : ∀ b, p (g b) = true) : (l.map g).filter p = l.map g := by
  induction l with
  | nil => rfl
  | cons x t ih => simp [List.filter_cons, h x, ih]

/-- The scenario filter of the spec: `WhereString` holds `("slug","abc")`
and `WhereInt64` holds `("id",42)`; every other field is its zero value. -/
def slugIdFilter : Filter :=
  { emptyFilter with
      WhereString := [⟨"slug", "abc"⟩], WhereInt64 := [⟨"id", 42⟩] }

/-- C2 counterexample: on a fresh handle, the scenario filter does NOT
produce `slug = "abc"` before `id = 42`: the claimed step sequence is not
what applyFilter emits. -/
theorem C2_counterexample :
    (applyFilter NewSelect slugIdFilter).steps
      ≠ [Step.whereAnd "slug = ?" (Val.vstr "abc"),
         Step.whereAnd "id = ?" (Val.vint64 42)] := by
  decide

/-- C2 amended: the scenario filter produces exactly two conjunctive
predicates, `id = 42` first and `slug = "abc"` second, because the
WhereInt64 loop runs before the WhereString loop (fixed type order int,
int64, string). -/
theorem C2_amended_order :
    (applyFilter NewSelect slugIdFilter).steps
      = [Step.whereAnd "id = ?" (Val.vint64 42),
         Step.whereAnd "slug = ?" (Val.vstr "abc")] := by
  decide

/-- C3: each AND-group (and WHERE-group) condition yields exactly one
conjunctive predicate and each OR-group condition exactly one disjunctive
predicate, in insertion order within each group; a filter holding only
OR-group conditions adds no conjunctive predicate to a fresh handle. -/
theorem C3_group_predicates (q : SelectQuery) (f : Filter) :
    ((applyFilter q f).steps.filter Step.isAndStep
      = q.steps.filter Step.isAndStep
        ++ f.AndInt.map andIntStep ++ f.AndInt64.map andInt64Step
        ++ f.AndString.map andStringStep
        ++ f.WhereInt.map andIntStep ++ f.WhereInt64.map andInt64Step
        ++ f.WhereString.map andStringStep)
    ∧ ((applyFilter q f).steps.filter Step.isOrStep
      = q.steps.filter Step.isOrStep
        ++ f.OrInt.map orIntStep ++ f.OrInt64.map orInt64Step
        ++ f.OrString.map orStringStep)
    ∧ ((applyFilter NewSelect
        { emptyFilter with
            OrInt := f.OrInt, OrInt64 := f.OrInt64,
            OrString := f.OrString }).steps.filter Step.isAndStep = []) := by
  refine ⟨?_, ?_, ?_⟩
  · rw [applyFilter_steps]
    by_cases h1 : f.Limit > 0 <;> by_cases h2 : f.Offset > 0 <;>
      simp [h1, h2, List.filter_append, filter_map_eq_nil, filter_map_eq_self,
        andIntStep, andInt64Step, andStringStep, orIntStep, orInt64Step,
        orStringStep, Step.isAndStep, Step.isOrStep]
  · rw [applyFilter_steps]
    by_cases h1 : f.Limit > 0 <;> by_cases h2 : f.Offset > 0 <;>
      simp [h1, h2, List.filter_append, filter_map_eq_nil, filter_map_eq_self,
        andIntStep, andInt64Step, andStringStep, orIntStep, orInt64Step,
        orStringStep, Step.isAndStep, Step.isOrStep]
  · rw [applyFilter_steps]
    simp [List.filter_append, filter_map_eq_nil, orIntStep, orInt64Step,
      orStringStep, Step.isAndStep, emptyFilter, NewSelect]

/-- C4: a limit directive is recorded iff `Filter.Limit` is strictly
positive (with that value), an offset directive iff `Filter.Offset` is
strictly positive; the zero filter adds nothing, and a filter with only a
positive limit `L` records exactly one limit directive `L` and nothing
else. -/
theorem C4_pagination (q : SelectQuery) (f : Filter) (L : Int) (hL : 0 < L) :
    ((applyFilter q f).steps.filter Step.isLimitStep
      = q.steps.filter Step.isLimitStep
        ++ (if f.Limit > 0 then [Step.limit f.Limit] else []))
    ∧ ((applyFilter q f).steps.filter Step.isOffsetStep
      = q.steps.filter Step.isOffsetStep
        ++ (if f.Offset > 0 then [Step.offset f.Offset] else []))
    ∧ ((applyFilter NewSelect emptyFilter).steps = [])
    ∧ ((applyFilter NewSelect { emptyFilter with Limit := L }).steps
        = [Step.limit L]) := by
  refine ⟨?_, ?_, by decide, ?_⟩
  · rw [applyFilter_steps]
    by_cases h1 : f.Limit > 0 <;> by_cases h2 : f.Offset > 0 <;>
      simp [h1, h2, List.filter_append, filter_map_eq_nil,
        andIntStep, andInt64Step, andStringStep, orIntStep, orInt64Step,
        orStringStep, Step.isLimitStep]
  · rw [applyFilter_steps]
    by_cases h1 : f.Limit > 0 <;> by_cases h2 : f.Offset > 0 <;>
      simp [h1, h2, List.filter_append, filter_map_eq_nil,
        andIntStep, andInt64Step, andStringStep, orIntStep, orInt64Step,
        orStringStep, Step.isOffsetStep]
  · rw [applyFilter_steps]
    simp [emptyFilter, NewSelect, hL]

/-- C4 witness: instantiated at a fresh handle, the zero filter and
limit 5. -/
theorem C4_pagination_witness :
    ((0 : Int) < 5)
    ∧ ((applyFilter NewSelect { emptyFilter with Limit := (5 : Int) }).steps
        = [Step.limit 5]) :=
  ⟨by decide, (C4_pagination NewSelect emptyFilter 5 (by decide)).2.2.2⟩

/-- C5: a filter whose only conditions sit in the WHERE-groups produces
exactly the same step sequence as the filter with those same conditions
moved to the corresponding AND-groups (pagination kept equal). -/
theorem C5_where_groups_equal_and_groups (q : SelectQuery)
    (wi wi64 : List (KV Int)) (ws : List (KV String)) (lim off : Int) :
    (applyFilter q { emptyFilter with
        WhereInt := wi, WhereInt64 := wi64, WhereString := ws,
        Limit := lim, Offset := off }).steps
      = (applyFilter q { emptyFilter with
          AndInt := wi, AndInt64 := wi64, AndString := ws,
          Limit := lim, Offset := off }).steps := by
  simp [applyFilter_steps, emptyFilter]

/-!
CRUD delegation. Each operation performs exactly one call into the external
store (bun's `Exec`/`Scan`); that call's outcome is passed in as an
`Except String _` value (error message or result). The operation's own logic
— the only logic it has — is wrapping a failure with a short prefix naming
the operation, translated branch for branch from the source.
-/

/-- `CRUD.Add` (also `Create` in the second copy of the file): delegate one
insert; on failure return `fmt.Errorf("insert error: %w", err)`. -/
def CRUD.Add (exec : Except String Unit) : Except String Unit :=
  match exec with
  | Except.error err => Except.error ("insert error: " ++ err)
  | Except.ok _ => Except.ok ()

/-- `CRUD.Update`: delegate one update; failure wrapped as
`"update error: %w"`. -/
def CRUD.Update (exec : Except String Unit) : Except String Unit :=
  match exec with
  | Except.error err => Except.error ("update error: " ++ err)
  | Except.ok _ => Except.ok ()

/-- `CRUD.Delete`: delegate one delete; failure wrapped as
`"delete error: %w"`. -/
def CRUD.Delete (exec : Except String Unit) : Except String Unit :=
  match exec with
  | Except.error err => Except.error ("delete error: " ++ err)
  | Except.ok _ => Except.ok ()

/-- `CRUD.List` result handling: on scan failure return nil results and
`"list error: %w"`; on success the scanned slice. -/
def CRUD.List {T : Type} (scan : Except String (List T)) :
    Except String (List T) :=
  match scan with
  | Except.error err => Except.error ("list error: " ++ err)
  | Except.ok results => Except.ok results

/-- `CRUD.Get` result handling: on scan failure `"get error: %w"`; on
success the scanned record. -/
def CRUD.Get {T : Type} (scan : Except String T) : Except String T :=
  match scan with
  | Except.error err => Except.error ("get error: " ++ err)
  | Except.ok result => Except.ok result

/-- `CRUD.GetBy` result handling: on scan failure `"getBy error: %w"`; on
success the scanned record. -/
def CRUD.GetBy {T : Type} (scan : Except String T) : Except String T :=
  match scan with
  | Except.error err => Except.error ("getBy error: " ++ err)
  | Except.ok result => Except.ok result

/-- `CRUD.Exists`: build the query by applying the filter to a fresh
handle, run the scan into an `int64` destination via the store oracle
`scan`, return `false` on any error and otherwise `id > 0`. -/
def CRUD.Exists (filter : Filter) (scan : SelectQuery → Except String Int) :
    Bool :=
  let query := applyFilter NewSelect filter
  match scan query with
  | Except.error _ => false
  | Except.ok id => decide (id > 0)

/-- The query `CRUD.List` builds before scanning:
`NewSelect().Model(&results).Order("id DESC")` then `applyFilter`. -/
def CRUD.ListQuery (filter : Filter) : SelectQuery :=
  applyFilter (SelectQuery.Order NewSelect "id DESC") filter

/-- The query `CRUD.Get` builds before scanning: `NewSelect().Model(&result)`
then `applyFilter`. -/
def CRUD.GetQuery (filter : Filter) : SelectQuery :=
  applyFilter NewSelect filter

/-- The query `CRUD.Exists` builds before scanning. -/
def CRUD.ExistsQuery (filter : Filter) : SelectQuery :=
  applyFilter NewSelect filter

/-- C6: each CRUD operation fails exactly when its single delegated store
call fails, and then returns the store's error wrapped with the short
prefix naming the operation; a successful store call is passed through
untouched. -/
theorem C6_error_wrapping {T : Type} (e : String) (xs : List T) (v : T) :
    (CRUD.Add (Except.error e) = Except.error ("insert error: " ++ e))
    ∧ (CRUD.Add (Except.ok ()) = Except.ok ())
    ∧ (CRUD.Update (Except.error e) = Except.error ("update error: " ++ e))
    ∧ (CRUD.Update (Except.ok ()) = Except.ok ())
    ∧ (CRUD.Delete (Except.error e) = Except.error ("delete error: " ++ e))
    ∧ (CRUD.Delete (Except.ok ()) = Except.ok ())
    ∧ (@CRUD.List T (Except.error e) = Except.error ("list error: " ++ e))
    ∧ (CRUD.List (Except.ok xs) = Except.ok xs)
    ∧ (@CRUD.Get T (Except.error e) = Except.error ("get error: " ++ e))
    ∧ (CRUD.Get (Except.ok v) = Except.ok v)
    ∧ (@CRUD.GetBy T (Except.error e) = Except.error ("getBy error: " ++ e))
    ∧ (CRUD.GetBy (Except.ok v) = Except.ok v) :=
  ⟨rfl, rfl, rfl, rfl, rfl, rfl, rfl, rfl, rfl, rfl, rfl, rfl⟩

/-- C7: whenever the store call made by Exists fails — whatever the filter
and whatever the error, a missing row included — Exists returns `false`;
no error value escapes. -/
theorem C7_exists_swallows_errors (f : Filter)
    (scan : SelectQuery → Except String Int) (e : String)
    (h : scan (applyFilter NewSelect f) = Except.error e) :
    CRUD.Exists f scan = false := by
  simp [CRUD.Exists, h]

/-- C7 witness: the zero filter against a store that reports "not found". -/
theorem C7_exists_swallows_errors_witness :
    ((fun _ => Except.error "sql: no rows in result set" :
        SelectQuery → Except String Int) (applyFilter NewSelect emptyFilter)
      = Except.error "sql: no rows in result set")
    ∧ CRUD.Exists emptyFilter
        (fun _ => Except.error "sql: no rows in result set") = false :=
  ⟨rfl, C7_exists_swallows_errors emptyFilter
    (fun _ => Except.error "sql: no rows in result set")
    "sql: no rows in result set" rfl⟩

/-- C8: compilation is deterministic — the output step sequence is a
function of the handle's prior step sequence and the Filter alone, so two
handles in the same state compiled with the same Filter end in the same
state. -/
theorem C8_deterministic (f : Filter) (q₁ q₂ : SelectQuery)
    (h : q₁.steps = q₂.steps) :
    (applyFilter q₁ f).steps = (applyFilter q₂ f).steps := by
  cases q₁
  cases q₂
  cases h
  rfl

/-- C8 witness: two fresh handles and the scenario filter. -/
theorem C8_deterministic_witness :
    NewSelect.steps = NewSelect.steps
    ∧ (applyFilter NewSelect slugIdFilter).steps
        = (applyFilter NewSelect slugIdFilter).steps :=
  ⟨rfl, C8_deterministic slugIdFilter NewSelect NewSelect rfl⟩

/-- C9: Exists returns `true` exactly when the scan succeeds and the
scanned id is strictly positive; a successful scan of a zero or negative
id gives `false`. -/
theorem C9_exists_positive_id (f : Filter)
    (scan : SelectQuery → Except String Int) :
    CRUD.Exists f scan = true
      ↔ ∃ id, scan (applyFilter NewSelect f) = Except.ok id ∧ 0 < id := by
  unfold CRUD.Exists
  cases hscan : scan (applyFilter NewSelect f) with
  | error e => simp [hscan]
  | ok id => simp [hscan]

/-- C10: List orders by `id DESC` before applying the filter — the
ordering directive is the very first step and the only ordering step for
every Filter — while the queries Get and Exists build contain no ordering
directive at all. -/
theorem C10_list_orders_by_id_desc (f : Filter) :
    ((CRUD.ListQuery f).steps.head? = some (Step.order "id DESC"))
    ∧ ((CRUD.ListQuery f).steps.filter Step.isOrderStep
        = [Step.order "id DESC"])
    ∧ ((CRUD.GetQuery f).steps.filter Step.isOrderStep = [])
    ∧ ((CRUD.ExistsQuery f).steps.filter Step.isOrderStep = []) := by
  refine ⟨?_, ?_, ?_, ?_⟩ <;>
  · simp only [CRUD.ListQuery, CRUD.GetQuery, CRUD.ExistsQuery]
    rw [applyFilter_steps]
    by_cases h1 : f.Limit > 0 <;> by_cases h2 : f.Offset > 0 <;>
      simp [h1, h2, List.filter_append, filter_map_eq_nil,
        andIntStep, andInt64Step, andStringStep, orIntStep, orInt64Step,
        orStringStep, Step.isOrderStep, SelectQuery.Order, NewSelect]

end Crud
